import Mathlib

/-!
Shallow embedding of the safety/bias heuristic scorer of the
Meta-Prompt-Engineering-Framework (src/safety/safety_checker.py), together
with the configuration table it reads (src/core/config.py).

Scores are modelled as rationals; every decimal constant of the source
appears literally, and every comparison the source makes (`min`, `max`,
`>`, `>=`) is mirrored on `ℚ`.  On every branch point the claims touch,
float and exact-rational evaluation agree (each score is a small sum of
multiples of 0.1/0.2/0.3/0.4 compared against 0.3/0.5/0.7/0.8/0.9, and the
only equality asserted, `1*0.3 + 1*0.25 + 1*0.25 + 1*0.2 = 1.0`, is exact
in binary floating point as well).

The source matches `re.findall` against `prompt.lower()` with two shapes
of pattern only:

* `\b(w1|...|wk)\b` — whole-word alternation (words may contain spaces,
  e.g. "social security").  `findall` returns one captured word per
  non-overlapping occurrence; since no listed word overlaps another
  occurrence of a word of the same list, the matches are exactly the
  boundary positions at which some listed word occurs, in text order,
  with ties at one position resolved by alternation order.
* `\b(g1...)\b.*\b(g2...)\b` — a g1 word followed (on the same line,
  since `.` does not cross a newline) by a g2 word.  The leftmost match
  starts at the first feasible g1 occurrence and, `.*` being greedy,
  ends at the last feasible g2 occurrence of that line, so each line
  yields at most one match: `findall` returns one (g1, g2) capture pair
  per line containing a g1 occurrence followed by a g2 occurrence.

Word characters are `[a-zA-Z0-9_]` (the source's inputs are ASCII, where
Python's `\w` and `str.lower` agree with `Char.isAlphanum` and
`Char.toLower`).
-/

namespace MetaPromptSafety

/-- Python `\w` on ASCII text: letters, digits, underscore. -/
def isWordChar (c : Char) : Bool := c.isAlphanum || c == '_'

/-- `prompt.lower()` as a character list (ASCII-faithful). -/
def lowerChars (s : String) : List Char := s.data.map Char.toLower

/-- The word `w` occurs literally at index `i` of `t`. -/
def occursAt (w : List Char) (t : List Char) (i : Nat) : Bool :=
  decide ((t.drop i).take w.length = w)

/-- The word `w` occurs at index `i` of `t` with `\b` on both sides:
characters adjacent to the occurrence (when any) are non-word characters. -/
def wordAt (w : List Char) (t : List Char) (i : Nat) : Bool :=
  occursAt w t i
    && (i == 0 || !isWordChar (t.getD (i - 1) ' '))
    && !isWordChar (t.getD (i + w.length) ' ')

/-- Captures of `re.findall(r"\b(w1|...|wk)\b", t)`: at each boundary
position where a listed word occurs, the first such word in alternation
order, in text order. -/
def findWordMatches (ws : List String) (t : List Char) : List String :=
  (List.range (t.length + 1)).filterMap (fun i => ws.find? (fun w => wordAt w.data t i))

/-- `t` contains `w` as a plain substring (Python's `w in t`). -/
def hasSub (w : List Char) (t : List Char) : Bool :=
  (List.range (t.length + 1)).any (fun i => occursAt w t i)

/-- Split on newline characters (the segments `.*` cannot cross). -/
def splitLines : List Char → List (List Char)
  | [] => [[]]
  | c :: cs =>
    let r := splitLines cs
    if c == '\n' then [] :: r else (c :: r.headD []) :: r.tail

/-- The one capture pair `re.findall(r"\bG1\b.*\bG2\b", line)` produces on a
single line, if any: the match starts at the first g1 occurrence that a g2
occurrence follows, `.*` greedily places the second group at the last
feasible g2 occurrence, and alternations prefer earlier words. -/
def seqCaptureLine (g1 g2 : List String) (line : List Char) : Option (String × String) :=
  match (List.range (line.length + 1)).findSome? (fun i =>
      (g1.find? (fun w1 => wordAt w1.data line i &&
          (List.range (line.length + 1)).any (fun j =>
            decide (i + w1.data.length ≤ j) && g2.any (fun w2 => wordAt w2.data line j)))).map
        (fun w1 => (i, w1))) with
  | none => none
  | some (i, w1) =>
    match ((List.range (line.length + 1)).filter (fun j =>
        decide (i + w1.data.length ≤ j) && g2.any (fun w2 => wordAt w2.data line j))).getLast? with
    | none => none
    | some j => (g2.find? (fun w2 => wordAt w2.data line j)).map (fun w2 => (w1, w2))

/-- The two regex shapes appearing in the source's pattern tables. -/
inductive Pattern where
  | words : List String → Pattern
  | seq : List String → List String → Pattern

/-- `len(re.findall(pattern, t))`. -/
def countMatches : Pattern → List Char → Nat
  | .words ws, t => (findWordMatches ws t).length
  | .seq a b, t => ((splitLines t).filterMap (seqCaptureLine a b)).length

/-- Python `repr` of a matched string (single-quoted; double-quoted when the
string itself holds a single quote, as "can\x27t" does). -/
def pyStrRepr (s : String) : String :=
  if s.data.contains '\x27' then "\x22" ++ s ++ "\x22" else "\x27" ++ s ++ "\x27"

/-- Python `repr` of a list of matched strings. -/
def pyListRepr (xs : List String) : String :=
  "[" ++ String.intercalate ", " (xs.map pyStrRepr) ++ "]"

/-- Python `repr` of a list of capture tuples. -/
def pyPairListRepr (xs : List (String × String)) : String :=
  "[" ++ String.intercalate ", " (xs.map (fun p => "(" ++ pyStrRepr p.1 ++ ", " ++ pyStrRepr p.2 ++ ")")) ++ "]"

/-- The f-string rendering `f"{matches}"` of a pattern's findall result. -/
def matchesRepr : Pattern → List Char → String
  | .words ws, t => pyListRepr (findWordMatches ws t)
  | .seq a b, t => pyPairListRepr ((splitLines t).filterMap (seqCaptureLine a b))

/-! ### The static pattern and weight tables (`_initialize_*` of the source) -/

def violence_patterns : List Pattern :=
  [.words ["kill", "murder", "assassinate", "bomb", "terrorist", "attack"],
   .words ["harm", "hurt", "injure", "damage", "destroy"],
   .words ["weapon", "gun", "knife", "explosive"]]

def hate_speech_patterns : List Pattern :=
  [.words ["racist", "sexist", "homophobic", "transphobic"],
   .words ["discriminate", "prejudice", "bigot"],
   .words ["superior", "inferior", "hate"]]

def illegal_activities_patterns : List Pattern :=
  [.words ["illegal", "crime", "criminal", "fraud", "steal"],
   .words ["drugs", "weapons", "hacking", "phishing"],
   .words ["exploit", "manipulate", "deceive"]]

def personal_information_patterns : List Pattern :=
  [.words ["ssn", "social security", "credit card", "password"],
   .words ["address", "phone", "email", "personal"],
   .words ["private", "confidential", "secret"]]

def harmful_patterns : List (String × List Pattern) :=
  [("violence", violence_patterns),
   ("hate_speech", hate_speech_patterns),
   ("illegal_activities", illegal_activities_patterns),
   ("personal_information", personal_information_patterns)]

def gender_bias_patterns : List Pattern :=
  [.seq ["man", "woman", "male", "female"] ["should", "must", "always", "never"],
   .seq ["girls", "boys"] ["can\x27t", "shouldn\x27t", "mustn\x27t"],
   .seq ["feminine", "masculine"] ["traits", "characteristics"]]

def racial_bias_patterns : List Pattern :=
  [.seq ["race", "ethnicity", "skin color"] ["determines", "causes", "results in"],
   .seq ["cultural", "background"] ["inferior", "superior"],
   .seq ["stereotype", "assumption"] ["based on", "because of"]]

def age_bias_patterns : List Pattern :=
  [.seq ["young", "old", "elderly", "teenager"] ["can\x27t", "shouldn\x27t", "mustn\x27t"],
   .seq ["age", "generation"] ["determines", "limits", "restricts"]]

def socioeconomic_bias_patterns : List Pattern :=
  [.seq ["poor", "rich", "wealthy", "poverty"] ["deserves", "earned", "responsible"],
   .seq ["education", "income"] ["determines", "causes", "results in"]]

def bias_indicators : List (String × List Pattern) :=
  [("gender_bias", gender_bias_patterns),
   ("racial_bias", racial_bias_patterns),
   ("age_bias", age_bias_patterns),
   ("socioeconomic_bias", socioeconomic_bias_patterns)]

def privacy_patterns : List Pattern :=
  [.words ["personal data", "private information", "confidential"],
   .seq ["track", "monitor", "surveil"] ["without consent"]]

def manipulation_patterns : List Pattern :=
  [.words ["manipulate", "deceive", "trick", "mislead"],
   .seq ["psychological", "emotional"] ["control", "influence"]]

def discrimination_patterns : List Pattern :=
  [.seq ["discriminate", "exclude", "prefer"] ["based on", "because of"],
   .seq ["treat differently"] ["race", "gender", "age", "religion"]]

def ethical_violation_patterns : List (String × List Pattern) :=
  [("privacy", privacy_patterns),
   ("manipulation", manipulation_patterns),
   ("discrimination", discrimination_patterns)]

def bias_weights : List (String × ℚ) :=
  [("gender_bias", 0.3), ("racial_bias", 0.3), ("age_bias", 0.2), ("socioeconomic_bias", 0.2)]

def bias_mitigation : List (String × String) :=
  [("gender_bias", "Use gender-neutral language and avoid stereotypes"),
   ("racial_bias", "Focus on individual characteristics, not group assumptions"),
   ("age_bias", "Avoid age-based assumptions and generalizations"),
   ("socioeconomic_bias", "Consider individual circumstances, not economic status")]

def toxic_words : List String :=
  ["hate", "kill", "hurt", "harm", "attack", "destroy",
   "stupid", "idiot", "moron", "worthless", "useless"]

/-- `SafetyConfig.safety_levels` of src/core/config.py. -/
def safety_levels : List (String × ℚ) :=
  [("strict", 0.9), ("standard", 0.7), ("permissive", 0.5)]

/-- `self.config.safety.safety_levels.get(safety_level, 0.7)`. -/
def resolve_threshold (lvl : String) : ℚ :=
  (safety_levels.lookup lvl).getD 0.7

/-! ### The four analyzers -/

/-- A category's raw score: per-match increment `inc` accumulated over the
category's patterns, then `min(·, 1.0)`. -/
def categoryPatternScore (inc : ℚ) (pats : List Pattern) (t : List Char) : ℚ :=
  min ((pats.map (fun pat => (countMatches pat t : ℚ) * inc)).sum) 1

/-- One issue line per pattern of the category that matched. -/
def categoryIssues (mk : String → String) (pats : List Pattern) (t : List Char) : List String :=
  pats.filterMap (fun pat =>
    if 0 < countMatches pat t then some (mk (matchesRepr pat t)) else none)

/-- `max(d.values()) if d else 0.0` over an association list's values. -/
def maxValues : List (String × ℚ) → ℚ
  | [] => 0
  | x :: xs => xs.foldl (fun m p => max m p.2) x.2

structure ContentAnalysis where
  content_scores : List (String × ℚ)
  issues : List String
  overall_content_score : ℚ

/-- `SafetyChecker._analyze_content`. -/
def analyze_content (prompt : String) : ContentAnalysis :=
  let t := lowerChars prompt
  let scores := harmful_patterns.map (fun ce => (ce.1, categoryPatternScore 0.2 ce.2 t))
  { content_scores := scores
    issues := (harmful_patterns.map (fun ce =>
      categoryIssues (fun r => "Detected " ++ ce.1 ++ " content: " ++ r) ce.2 t)).flatten
    overall_content_score := maxValues scores }

structure BiasAnalysis where
  bias_scores : List (String × ℚ)
  bias_score : ℚ
  issues : List String

/-- `SafetyChecker._detect_bias`. -/
def detect_bias (prompt : String) : BiasAnalysis :=
  let t := lowerChars prompt
  let scores := bias_indicators.map (fun ce => (ce.1, categoryPatternScore 0.3 ce.2 t))
  { bias_scores := scores
    bias_score := (scores.map (fun p => p.2 * ((bias_weights.lookup p.1).getD 0))).sum
    issues := (bias_indicators.map (fun ce =>
      categoryIssues (fun r => "Potential " ++ ce.1 ++ ": " ++ r) ce.2 t)).flatten }

/-- The situational-context flags the ethical checker reads (a truthy Python
dict; `None` and the falsy empty dict are `Option.none`, which the source
treats identically to a dict whose flags are both false). -/
structure ContextFlags where
  contains_personal_data : Bool := false
  sensitive_context : Bool := false

/-- `SafetyChecker._check_context_ethics`. -/
def check_context_ethics (prompt : String) (ctx : ContextFlags) : List String :=
  let t := lowerChars prompt
  (if ctx.contains_personal_data && (hasSub "personal".data t || hasSub "private".data t)
    then ["Potential privacy violation in context"] else []) ++
  (if ctx.sensitive_context && (hasSub "manipulate".data t || hasSub "influence".data t)
    then ["Potential manipulation in sensitive context"] else [])

structure EthicalAnalysis where
  ethical_scores : List (String × ℚ)
  violations : List String
  overall_ethical_score : ℚ

/-- `SafetyChecker._check_ethical_alignment`. -/
def check_ethical_alignment (prompt : String) (context : Option ContextFlags) : EthicalAnalysis :=
  let t := lowerChars prompt
  let scores := ethical_violation_patterns.map (fun ce => (ce.1, categoryPatternScore 0.4 ce.2 t))
  { ethical_scores := scores
    violations := (ethical_violation_patterns.map (fun ce =>
        categoryIssues (fun r => "Ethical violation (" ++ ce.1 ++ "): " ++ r) ce.2 t)).flatten
      ++ (match context with
          | none => []
          | some ctx => check_context_ethics prompt ctx)
    overall_ethical_score := maxValues scores }

structure ToxicityAnalysis where
  toxicity_score : ℚ
  toxic_instances : List String

/-- `SafetyChecker._assess_toxicity`. -/
def assess_toxicity (prompt : String) : ToxicityAnalysis :=
  let t := lowerChars prompt
  { toxicity_score :=
      min ((toxic_words.map (fun w => ((findWordMatches [w] t).length : ℚ) * 0.1)).sum) 1
    toxic_instances := toxic_words.filterMap (fun w =>
      if 0 < (findWordMatches [w] t).length then
        some ("Toxic word \x27" ++ w ++ "\x27: "
          ++ toString (findWordMatches [w] t).length ++ " instances")
      else none) }

/-! ### Aggregation, risk level, recommendations, verdict -/

/-- `SafetyChecker._calculate_safety_score`. -/
def calculate_safety_score (ca : ContentAnalysis) (ba : BiasAnalysis)
    (ea : EthicalAnalysis) (ta : ToxicityAnalysis) : ℚ :=
  let content_score := 1 - ca.overall_content_score
  let bias_score := 1 - ba.bias_score
  let ethical_score := 1 - ea.overall_ethical_score
  let toxicity_score := 1 - ta.toxicity_score
  max 0 (min 1
    (content_score * 0.3 + bias_score * 0.25 + ethical_score * 0.25 + toxicity_score * 0.2))

/-- `SafetyChecker._determine_risk_level`. -/
def determine_risk_level (s : ℚ) : String :=
  if 0.8 ≤ s then "low"
  else if 0.6 ≤ s then "medium"
  else if 0.4 ≤ s then "high"
  else "critical"

/-- `SafetyChecker._generate_recommendations`. -/
def generate_recommendations (ca : ContentAnalysis) (ba : BiasAnalysis)
    (ea : EthicalAnalysis) (ta : ToxicityAnalysis) : List String :=
  (if 0.5 < ca.overall_content_score
    then ["Review content for potentially harmful language"] else [])
  ++ ba.bias_scores.filterMap (fun p =>
      if 0.3 < p.2 then
        some ("Address " ++ p.1 ++ ": " ++ ((bias_mitigation.lookup p.1).getD "Review for bias"))
      else none)
  ++ (if 0.5 < ea.overall_ethical_score then ["Review for ethical compliance"] else [])
  ++ (if 0.5 < ta.toxicity_score then ["Reduce toxic language and tone"] else [])

/-- `SafetyResult` of the source. -/
structure SafetyResult where
  is_safe : Bool
  safety_score : ℚ
  risk_level : String
  detected_issues : List String
  bias_score : ℚ
  toxicity_score : ℚ
  ethical_violations : List String
  recommendations : List String
  reason : Option String
deriving DecidableEq

/-- `SafetyChecker.check_prompt`, the non-exceptional path. -/
def check_prompt (prompt : String) (safety_level : String := "standard")
    (context : Option ContextFlags := none) : SafetyResult :=
  let safety_threshold := resolve_threshold safety_level
  let ca := analyze_content prompt
  let ba := detect_bias prompt
  let ea := check_ethical_alignment prompt context
  let ta := assess_toxicity prompt
  let safety_score := calculate_safety_score ca ba ea ta
  { is_safe := decide (safety_threshold ≤ safety_score)
    safety_score := safety_score
    risk_level := determine_risk_level safety_score
    detected_issues := ca.issues ++ ba.issues ++ ea.violations
    bias_score := ba.bias_score
    toxicity_score := ta.toxicity_score
    ethical_violations := ea.violations
    recommendations := generate_recommendations ca ba ea ta
    reason := if safety_threshold ≤ safety_score then none
              else some "Safety threshold not met" }

/-- `SafetyChecker.check_prompt` with its `try/except` mirrored: `fault` is
the exception (message) an analysis step raised, when one did; the `except`
arm returns the literal fail-closed result of the source. -/
def check_prompt_total (fault : Option String) (prompt : String)
    (safety_level : String := "standard") (context : Option ContextFlags := none) : SafetyResult :=
  match fault with
  | some msg =>
    { is_safe := false
      safety_score := 0.0
      risk_level := "unknown"
      detected_issues := ["Safety check error"]
      bias_score := 1.0
      toxicity_score := 1.0
      ethical_violations := ["Safety system failure"]
      recommendations := ["Contact system administrator"]
      reason := some ("Safety check error: " ++ msg) }
  | none => check_prompt prompt safety_level context

/-- `SafetyChecker.validate_prompt`: deny-list substring screen. -/
def validate_prompt (prompt : String) : Bool :=
  !(["kill", "hate", "harm", "attack", "destroy"].any
      (fun w => hasSub w.data (lowerChars prompt)))

/-! ### Helper lemmas -/

theorem categoryPatternScore_nonneg (inc : ℚ) (pats : List Pattern) (t : List Char)
    (h : 0 ≤ inc) : 0 ≤ categoryPatternScore inc pats t := by
  refine le_min ?_ zero_le_one
  refine List.sum_nonneg ?_
  intro x hx
  obtain ⟨pat, -, rfl⟩ := List.mem_map.mp hx
  exact mul_nonneg (Nat.cast_nonneg _) h

theorem categoryPatternScore_le_one (inc : ℚ) (pats : List Pattern) (t : List Char) :
    categoryPatternScore inc pats t ≤ 1 :=
  min_le_right _ _

theorem calculate_safety_score_nonneg (ca : ContentAnalysis) (ba : BiasAnalysis)
    (ea : EthicalAnalysis) (ta : ToxicityAnalysis) :
    0 ≤ calculate_safety_score ca ba ea ta :=
  le_max_left _ _

/-- `is_safe` of a non-faulting check is the threshold comparison on the
aggregate score (which does not depend on the safety level). -/
theorem check_prompt_total_is_safe (p lvl : String) (ctx : Option ContextFlags) :
    (check_prompt_total none p lvl ctx).is_safe
      = decide (resolve_threshold lvl ≤ calculate_safety_score (analyze_content p)
          (detect_bias p) (check_ethical_alignment p ctx) (assess_toxicity p)) := rfl

theorem calculate_safety_score_le_one (ca : ContentAnalysis) (ba : BiasAnalysis)
    (ea : EthicalAnalysis) (ta : ToxicityAnalysis) :
    calculate_safety_score ca ba ea ta ≤ 1 :=
  max_le zero_le_one (min_le_left _ _)

/-! ### Claims -/

/-- C2: for every prompt, safety level and context, when an analysis step
raises an exception, `check_prompt` catches it and returns the fail-closed
verdict: `is_safe = false`, `safety_score = 0.0`, `risk_level = "unknown"`,
`bias_score = 1.0`, `toxicity_score = 1.0`, a generic detected issue and
ethical violation noting the internal failure, and a reason string carrying
the failure detail. -/
theorem C2_fail_closed_verdict (msg prompt lvl : String) (ctx : Option ContextFlags) :
    (check_prompt_total (some msg) prompt lvl ctx).is_safe = false
  ∧ (check_prompt_total (some msg) prompt lvl ctx).safety_score = 0.0
  ∧ (check_prompt_total (some msg) prompt lvl ctx).risk_level = "unknown"
  ∧ (check_prompt_total (some msg) prompt lvl ctx).bias_score = 1.0
  ∧ (check_prompt_total (some msg) prompt lvl ctx).toxicity_score = 1.0
  ∧ (check_prompt_total (some msg) prompt lvl ctx).detected_issues = ["Safety check error"]
  ∧ (check_prompt_total (some msg) prompt lvl ctx).ethical_violations = ["Safety system failure"]
  ∧ (check_prompt_total (some msg) prompt lvl ctx).reason = some ("Safety check error: " ++ msg) :=
  ⟨rfl, rfl, rfl, rfl, rfl, rfl, rfl, rfl⟩

/-- C3: every per-category score of the content, bias, ethical and toxicity
analyzers lies in [0,1], and the aggregate `safety_score` of the returned
verdict lies in [0,1] on both the normal and the error path. -/
theorem C3_scores_in_unit_interval (p lvl : String) (ctx : Option ContextFlags)
    (fault : Option String) :
    (∀ e ∈ (analyze_content p).content_scores, 0 ≤ e.2 ∧ e.2 ≤ 1)
  ∧ (∀ e ∈ (detect_bias p).bias_scores, 0 ≤ e.2 ∧ e.2 ≤ 1)
  ∧ (∀ e ∈ (check_ethical_alignment p ctx).ethical_scores, 0 ≤ e.2 ∧ e.2 ≤ 1)
  ∧ (0 ≤ (assess_toxicity p).toxicity_score ∧ (assess_toxicity p).toxicity_score ≤ 1)
  ∧ (0 ≤ (check_prompt_total fault p lvl ctx).safety_score
      ∧ (check_prompt_total fault p lvl ctx).safety_score ≤ 1) := by
  refine ⟨?_, ?_, ?_, ⟨?_, ?_⟩, ?_⟩
  · intro e he
    obtain ⟨ce, -, rfl⟩ := List.mem_map.mp he
    exact ⟨categoryPatternScore_nonneg _ _ _ (by norm_num), categoryPatternScore_le_one _ _ _⟩
  · intro e he
    obtain ⟨ce, -, rfl⟩ := List.mem_map.mp he
    exact ⟨categoryPatternScore_nonneg _ _ _ (by norm_num), categoryPatternScore_le_one _ _ _⟩
  · intro e he
    obtain ⟨ce, -, rfl⟩ := List.mem_map.mp he
    exact ⟨categoryPatternScore_nonneg _ _ _ (by norm_num), categoryPatternScore_le_one _ _ _⟩
  · refine le_min ?_ zero_le_one
    refine List.sum_nonneg ?_
    intro x hx
    obtain ⟨w, -, rfl⟩ := List.mem_map.mp hx
    exact mul_nonneg (Nat.cast_nonneg _) (by norm_num)
  · exact min_le_right _ _
  · cases fault with
    | some msg =>
      have h : (check_prompt_total (some msg) p lvl ctx).safety_score = 0.0 := rfl
      rw [h]
      exact ⟨by norm_num, by norm_num⟩
    | none =>
      exact ⟨calculate_safety_score_nonneg _ _ _ _, calculate_safety_score_le_one _ _ _ _⟩

/-- C5: `check_prompt` on the empty string (standard level, no context)
returns `safety_score = 1.0`, `risk_level = "low"`, `is_safe = true`, and
empty `detected_issues` and `ethical_violations`. -/
theorem C5_empty_prompt_verdict :
    (check_prompt_total none "" "standard" none).safety_score = 1
  ∧ (check_prompt_total none "" "standard" none).risk_level = "low"
  ∧ (check_prompt_total none "" "standard" none).is_safe = true
  ∧ (check_prompt_total none "" "standard" none).detected_issues = []
  ∧ (check_prompt_total none "" "standard" none).ethical_violations = [] :=
  ⟨by with_unfolding_all rfl, by with_unfolding_all rfl, by with_unfolding_all rfl,
   by with_unfolding_all rfl, by with_unfolding_all rfl⟩

/-- C8: `validate_prompt` returns `false` on "I will kill the process" and
`true` on "Describe a sunny day", deciding by substring containment of the
deny-list words in the lower-cased prompt. -/
theorem C8_validate_prompt_denylist :
    validate_prompt "I will kill the process" = false
  ∧ validate_prompt "Describe a sunny day" = true
  ∧ ∀ p : String, (validate_prompt p = false
      ↔ ∃ w ∈ (["kill", "hate", "harm", "attack", "destroy"] : List String),
          hasSub w.data (lowerChars p) = true) := by
  refine ⟨by with_unfolding_all rfl, by with_unfolding_all rfl, ?_⟩
  intro p
  unfold validate_prompt
  rw [Bool.not_eq_false']
  exact List.any_eq_true

/-- C9: there is a prompt (here "skill", holding a deny-list word only as a
proper substring of a longer word) on which `validate_prompt` returns
`false` while `check_prompt` returns `is_safe = true` with
`safety_score = 1.0`: `validate_prompt` matches raw substrings while the
analyzer patterns use whole-word boundaries. -/
theorem C9_validate_vs_check_prompt_divergence :
    ∃ p : String, validate_prompt p = false
  ∧ (check_prompt_total none p "standard" none).is_safe = true
  ∧ (check_prompt_total none p "standard" none).safety_score = 1 :=
  ⟨"skill", by with_unfolding_all rfl, by with_unfolding_all rfl, by with_unfolding_all rfl⟩

/-- C1 (counterexample): on the input "Women should always be caretakers"
(standard level, no context) no bias pattern matches — "women" is not in the
`man|woman|male|female` alternation — so the verdict's `bias_score` is not
positive and the gender-bias mitigation recommendation is absent; the claim
as stated is false at this input. -/
theorem C1_gender_bias_counterexample :
    ¬ (0 < (check_prompt_total none "Women should always be caretakers" "standard" none).bias_score
      ∧ "Address gender_bias: Use gender-neutral language and avoid stereotypes"
          ∈ (check_prompt_total none "Women should always be caretakers" "standard" none).recommendations) := by
  intro hcl
  have h0 : (check_prompt_total none "Women should always be caretakers" "standard" none).bias_score = 0 := by
    with_unfolding_all rfl
  rw [h0] at hcl
  exact absurd hcl.1 (lt_irrefl 0)

/-- C1 (amended): for the input "A woman should have feminine traits"
(standard level, no context), `check_prompt` triggers two gender-bias
patterns (category score 0.6, above the strict `> 0.3` recommendation
cutoff that a single 0.3-scoring match would miss), returns a verdict with
`bias_score = 0.18 > 0`, and includes the gender-bias mitigation
recommendation string. -/
theorem C1_gender_bias_amended :
    0 < (check_prompt_total none "A woman should have feminine traits" "standard" none).bias_score
  ∧ (check_prompt_total none "A woman should have feminine traits" "standard" none).bias_score = 0.18
  ∧ "Address gender_bias: Use gender-neutral language and avoid stereotypes"
      ∈ (check_prompt_total none "A woman should have feminine traits" "standard" none).recommendations
  ∧ (detect_bias "A woman should have feminine traits").bias_scores.lookup "gender_bias" = some 0.6 := by
  have hb : (check_prompt_total none "A woman should have feminine traits" "standard" none).bias_score = 0.18 := by
    with_unfolding_all rfl
  have hr : (check_prompt_total none "A woman should have feminine traits" "standard" none).recommendations
      = ["Address gender_bias: Use gender-neutral language and avoid stereotypes"] := by
    with_unfolding_all rfl
  refine ⟨?_, hb, ?_, by with_unfolding_all rfl⟩
  · rw [hb]; norm_num
  · rw [hr]; exact List.mem_singleton.mpr rfl

/-- C4: for a fixed prompt and context, under the default threshold table
(strict = 0.9 ≥ permissive = 0.5), if the strict check is safe then the
permissive check is safe. -/
theorem C4_strict_implies_permissive (p : String) (ctx : Option ContextFlags)
    (h : (check_prompt_total none p "strict" ctx).is_safe = true) :
    (check_prompt_total none p "permissive" ctx).is_safe = true := by
  rw [check_prompt_total_is_safe, decide_eq_true_eq,
    (by with_unfolding_all rfl : resolve_threshold "strict" = (0.9 : ℚ))] at h
  rw [check_prompt_total_is_safe, decide_eq_true_eq,
    (by with_unfolding_all rfl : resolve_threshold "permissive" = (0.5 : ℚ))]
  exact le_trans (by norm_num) h

/-- C4 witness: on the empty prompt the strict check is safe, and the
theorem then yields that the permissive check is safe. -/
theorem C4_strict_implies_permissive_witness :
    (check_prompt_total none "" "permissive" none).is_safe = true :=
  C4_strict_implies_permissive "" none (by with_unfolding_all rfl)

/-- C7: for every prompt and every safety-level string not in the
safety-level table, `check_prompt` resolves the standard default threshold
0.7 and returns the same verdict as the "standard" level (no error is
raised: the function is total). -/
theorem C7_unknown_level_standard_threshold (p lvl : String) (ctx : Option ContextFlags)
    (h1 : lvl ≠ "strict") (h2 : lvl ≠ "standard") (h3 : lvl ≠ "permissive") :
    resolve_threshold lvl = 0.7
  ∧ check_prompt_total none p lvl ctx = check_prompt_total none p "standard" ctx := by
  have e1 : (lvl == "strict") = false := beq_eq_false_iff_ne.mpr h1
  have e2 : (lvl == "standard") = false := beq_eq_false_iff_ne.mpr h2
  have e3 : (lvl == "permissive") = false := beq_eq_false_iff_ne.mpr h3
  have hl : safety_levels.lookup lvl = none := by
    simp [safety_levels, List.lookup, e1, e2, e3]
  have ht : resolve_threshold lvl = 0.7 := by
    unfold resolve_threshold
    rw [hl]
    rfl
  have hstd : resolve_threshold "standard" = (0.7 : ℚ) := by with_unfolding_all rfl
  refine ⟨ht, ?_⟩
  show check_prompt p lvl ctx = check_prompt p "standard" ctx
  unfold check_prompt
  rw [ht, hstd]

/-- C7 witness: the unknown level "ultra" resolves the 0.7 threshold and
yields the standard verdict on the empty prompt. -/
theorem C7_unknown_level_standard_threshold_witness :
    resolve_threshold "ultra" = 0.7
  ∧ check_prompt_total none "" "ultra" none = check_prompt_total none "" "standard" none :=
  C7_unknown_level_standard_threshold "" "ultra" none (by decide) (by decide) (by decide)

/-- C6: the aggregate bias score is the weighted sum over the four bias
categories of the clamped per-category scores (0.3 per pattern match) with
weights gender 0.3, racial 0.3, age 0.2, socioeconomic 0.2 — while the
content aggregate is the max over its category scores. -/
theorem C6_bias_weighted_sum_content_max (p : String) :
    (detect_bias p).bias_score =
        categoryPatternScore 0.3 gender_bias_patterns (lowerChars p) * 0.3
      + categoryPatternScore 0.3 racial_bias_patterns (lowerChars p) * 0.3
      + categoryPatternScore 0.3 age_bias_patterns (lowerChars p) * 0.2
      + categoryPatternScore 0.3 socioeconomic_bias_patterns (lowerChars p) * 0.2
  ∧ (analyze_content p).overall_content_score =
      max (max (max (categoryPatternScore 0.2 violence_patterns (lowerChars p))
          (categoryPatternScore 0.2 hate_speech_patterns (lowerChars p)))
          (categoryPatternScore 0.2 illegal_activities_patterns (lowerChars p)))
          (categoryPatternScore 0.2 personal_information_patterns (lowerChars p)) := by
  constructor
  · have h : (detect_bias p).bias_score
        = categoryPatternScore 0.3 gender_bias_patterns (lowerChars p) * (0.3 : ℚ)
          + (categoryPatternScore 0.3 racial_bias_patterns (lowerChars p) * 0.3
          + (categoryPatternScore 0.3 age_bias_patterns (lowerChars p) * 0.2
          + (categoryPatternScore 0.3 socioeconomic_bias_patterns (lowerChars p) * 0.2 + 0))) := rfl
    rw [h]
    ring
  · rfl

/-! Auxiliary facts for C10: every toxicity-instance string starts with the
character 'T' while every string the three issue-producing analyzers emit
starts with 'D', 'P' or 'E', so the toxic instances can never appear among
the detected issues. -/

theorem analyze_content_issue_head (p : String) :
    ∀ s ∈ (analyze_content p).issues, s.data.head? = some 'D' := by
  intro s hs
  have he : (analyze_content p).issues = (harmful_patterns.map (fun ce =>
      categoryIssues (fun r => "Detected " ++ ce.1 ++ " content: " ++ r) ce.2
        (lowerChars p))).flatten := rfl
  rw [he] at hs
  obtain ⟨l, hl, hsl⟩ := List.mem_flatten.mp hs
  obtain ⟨ce, -, rfl⟩ := List.mem_map.mp hl
  unfold categoryIssues at hsl
  obtain ⟨pat, -, hpat⟩ := List.mem_filterMap.mp hsl
  split at hpat
  · rw [← Option.some.inj hpat]
    rfl
  · exact Option.noConfusion hpat

theorem detect_bias_issue_head (p : String) :
    ∀ s ∈ (detect_bias p).issues, s.data.head? = some 'P' := by
  intro s hs
  have he : (detect_bias p).issues = (bias_indicators.map (fun ce =>
      categoryIssues (fun r => "Potential " ++ ce.1 ++ ": " ++ r) ce.2
        (lowerChars p))).flatten := rfl
  rw [he] at hs
  obtain ⟨l, hl, hsl⟩ := List.mem_flatten.mp hs
  obtain ⟨ce, -, rfl⟩ := List.mem_map.mp hl
  unfold categoryIssues at hsl
  obtain ⟨pat, -, hpat⟩ := List.mem_filterMap.mp hsl
  split at hpat
  · rw [← Option.some.inj hpat]
    rfl
  · exact Option.noConfusion hpat

theorem ethical_base_head (p : String) :
    ∀ s ∈ (ethical_violation_patterns.map (fun ce =>
        categoryIssues (fun r => "Ethical violation (" ++ ce.1 ++ "): " ++ r) ce.2
          (lowerChars p))).flatten,
      s.data.head? = some 'E' := by
  intro s hs
  obtain ⟨l, hl, hsl⟩ := List.mem_flatten.mp hs
  obtain ⟨ce, -, rfl⟩ := List.mem_map.mp hl
  unfold categoryIssues at hsl
  obtain ⟨pat, -, hpat⟩ := List.mem_filterMap.mp hsl
  split at hpat
  · rw [← Option.some.inj hpat]
    rfl
  · exact Option.noConfusion hpat

theorem ethical_violation_head (p : String) (ctx : Option ContextFlags) :
    ∀ s ∈ (check_ethical_alignment p ctx).violations,
      s.data.head? = some 'E' ∨ s.data.head? = some 'P' := by
  cases ctx with
  | none =>
    intro s hs
    have he : (check_ethical_alignment p none).violations
        = (ethical_violation_patterns.map (fun ce =>
            categoryIssues (fun r => "Ethical violation (" ++ ce.1 ++ "): " ++ r) ce.2
              (lowerChars p))).flatten ++ ([] : List String) := rfl
    rw [he] at hs
    rcases List.mem_append.mp hs with h | h
    · exact Or.inl (ethical_base_head p s h)
    · exact absurd h (List.not_mem_nil s)
  | some c =>
    intro s hs
    have he : (check_ethical_alignment p (some c)).violations
        = (ethical_violation_patterns.map (fun ce =>
            categoryIssues (fun r => "Ethical violation (" ++ ce.1 ++ "): " ++ r) ce.2
              (lowerChars p))).flatten ++ check_context_ethics p c := rfl
    rw [he] at hs
    rcases List.mem_append.mp hs with h | h
    · exact Or.inl (ethical_base_head p s h)
    · right
      unfold check_context_ethics at h
      rcases List.mem_append.mp h with h' | h' <;> split at h'
      · rw [List.mem_singleton.mp h']
        rfl
      · exact absurd h' (List.not_mem_nil s)
      · rw [List.mem_singleton.mp h']
        rfl
      · exact absurd h' (List.not_mem_nil s)

theorem toxic_instance_head (p : String) :
    ∀ s ∈ (assess_toxicity p).toxic_instances, s.data.head? = some 'T' := by
  intro s hs
  have he : (assess_toxicity p).toxic_instances = toxic_words.filterMap (fun w =>
      if 0 < (findWordMatches [w] (lowerChars p)).length then
        some ("Toxic word \x27" ++ w ++ "\x27: "
          ++ toString (findWordMatches [w] (lowerChars p)).length ++ " instances")
      else none) := rfl
  rw [he] at hs
  obtain ⟨w, -, hw⟩ := List.mem_filterMap.mp hs
  split at hw
  · rw [← Option.some.inj hw]
    rfl
  · exact Option.noConfusion hw

/-- C10: on the non-error path the verdict's `detected_issues` is exactly
the content issues, then the bias issues, then the ethical violations; the
toxicity assessor's per-word instance strings never appear among them. -/
theorem C10_detected_issues_concatenation (p lvl : String) (ctx : Option ContextFlags) :
    (check_prompt_total none p lvl ctx).detected_issues
      = (analyze_content p).issues ++ (detect_bias p).issues
        ++ (check_ethical_alignment p ctx).violations
  ∧ ∀ s ∈ (assess_toxicity p).toxic_instances,
      s ∉ (check_prompt_total none p lvl ctx).detected_issues := by
  have hconcat : (check_prompt_total none p lvl ctx).detected_issues
      = (analyze_content p).issues ++ (detect_bias p).issues
        ++ (check_ethical_alignment p ctx).violations := rfl
  refine ⟨hconcat, ?_⟩
  intro s hs hmem
  have hT := toxic_instance_head p s hs
  rw [hconcat] at hmem
  rcases List.mem_append.mp hmem with h | h
  · rcases List.mem_append.mp h with h' | h'
    · have hD := analyze_content_issue_head p s h'
      rw [hT] at hD
      exact absurd hD (by decide)
    · have hP := detect_bias_issue_head p s h'
      rw [hT] at hP
      exact absurd hP (by decide)
  · rcases ethical_violation_head p ctx s h with h' | h' <;> rw [hT] at h'
    · exact absurd h' (by decide)
    · exact absurd h' (by decide)

end MetaPromptSafety
